import Mathlib

/-!
Verification development for the TED (tolerant edit distance) segmentation
evaluator.  The repository source under scrutiny is the command-line driver
(src/binaries/ted.cpp); the evaluation core it calls (LabelVolume,
CorrespondenceBuilder, ErrorClassifier, TolerantEditDistanceErrors,
ErrorReport) is declared there but its implementation is not part of the
sources, so those components are modelled from the specification and marked
as such in their doc comments.  The driver's control flow (header-only runs,
the corrected-reconstruction fetch, the listing files, the plot-file
appends) is embedded directly from ted.cpp.
-/

/-- A 3D label volume: a dense grid of region labels together with its voxel
dimensions.  Labels are natural numbers; label 0 is the reserved background
value of the data model. -/
structure LabelVolume where
  width : ℕ
  height : ℕ
  depth : ℕ
  data : ℕ → ℕ → ℕ → ℕ

/-- The set of voxel positions of a volume. -/
def positions (v : LabelVolume) : Finset (ℕ × ℕ × ℕ) :=
  Finset.range v.width ×ˢ Finset.range v.height ×ˢ Finset.range v.depth

/-- The label stored at a position. -/
def labelAt (v : LabelVolume) (p : ℕ × ℕ × ℕ) : ℕ :=
  v.data p.1 p.2.1 p.2.2

/-- Number of voxels carrying a given label. -/
def regionSize (v : LabelVolume) (l : ℕ) : ℕ :=
  ((positions v).filter (fun p => labelAt v p = l)).card

/-- The labels that actually occur in a volume (one node set of the
bipartite overlap graph). -/
def labelsOf (v : LabelVolume) : Finset ℕ :=
  (positions v).image (labelAt v)

/-- Absolute difference of two voxel coordinates. -/
def natDiff (a b : ℕ) : ℕ := max a b - min a b

/-- Chebyshev distance between voxel positions.  The spec leaves the exact
tolerance geometry open (isotropic voxel distance vs. resolution-scaled), so
the voxel-unit Chebyshev metric is used; the theorems below depend only on
distance zero meaning equality and on monotone distance thresholds. -/
def chebDist (p q : ℕ × ℕ × ℕ) : ℕ :=
  max (natDiff p.1 q.1) (max (natDiff p.2.1 q.2.1) (natDiff p.2.2 q.2.2))

/-- Modelled from the spec: the CorrespondenceBuilder implementation is not
under the sources.  Tolerant overlap of a GT label and a reconstruction
label: the number of reconstruction voxels carrying the reconstruction label
that lie within the tolerance radius of some voxel of the GT label. -/
def tolOverlap (gtv recv : LabelVolume) (t : ℕ) (g r : ℕ) : ℕ :=
  ((positions recv).filter
    (fun p => labelAt recv p = r ∧
      ∃ q ∈ positions gtv, labelAt gtv q = g ∧ chebDist p q ≤ t)).card

/-- Modelled from the spec: classifier parameters — the tolerance radius in
voxels, the minimum-fraction-of-region-size threshold given as num/den, and
the flag saying whether a background label is present/considered. -/
structure ClassifierParams where
  t : ℕ
  num : ℕ
  den : ℕ
  bgEnabled : Bool
deriving DecidableEq

/-- Modelled from the spec: the substantial tolerant-overlap partners of a
GT label — reconstruction labels whose tolerant overlap with it is at least
the threshold fraction of the GT region's size. -/
def gtPartners (cp : ClassifierParams) (gtv recv : LabelVolume) (g : ℕ) : Finset ℕ :=
  (labelsOf recv).filter
    (fun r => cp.num * regionSize gtv g ≤ cp.den * tolOverlap gtv recv cp.t g r)

/-- Modelled from the spec: the substantial tolerant-overlap partners of a
reconstruction label — GT labels whose tolerant overlap with it is at least
the threshold fraction of the reconstruction region's size. -/
def recPartners (cp : ClassifierParams) (gtv recv : LabelVolume) (r : ℕ) : Finset ℕ :=
  (labelsOf gtv).filter
    (fun g => cp.num * regionSize recv r ≤ cp.den * tolOverlap gtv recv cp.t g r)

/-- Category assigned to a ground-truth label. -/
inductive GtCategory where
  | matched
  | split
  | falseNegative
deriving DecidableEq

/-- Category assigned to a reconstruction label. -/
inductive RecCategory where
  | matched
  | merge
  | falsePositive
deriving DecidableEq

/-- Modelled from the spec: the ErrorClassifier implementation is not under
the sources.  A GT label whose only substantial reconstruction partner is
the background becomes a false negative (only with background handling and
never for the background label itself); one with more than one substantial
partner is a split; otherwise it is matched. -/
def classifyGt (cp : ClassifierParams) (gtv recv : LabelVolume) (g : ℕ) : GtCategory :=
  if cp.bgEnabled ∧ g ≠ 0 ∧ gtPartners cp gtv recv g = {0} then .falseNegative
  else if 1 < (gtPartners cp gtv recv g).card then .split
  else .matched

/-- Modelled from the spec: symmetric classification of a reconstruction
label — false positive when its only substantial GT partner is background,
merge when it has more than one substantial GT partner, matched otherwise. -/
def classifyRec (cp : ClassifierParams) (gtv recv : LabelVolume) (r : ℕ) : RecCategory :=
  if cp.bgEnabled ∧ r ≠ 0 ∧ recPartners cp gtv recv r = {0} then .falsePositive
  else if 1 < (recPartners cp gtv recv r).card then .merge
  else .matched

/-- Mirror of the TolerantEditDistanceErrors interface consumed by ted.cpp
(getSplitLabels, getSplits, getMergeLabels, getMerges, getFalsePositives,
getFalseNegatives, hasBackgroundLabel). -/
structure TolerantEditDistanceErrors where
  splitLabels : Finset ℕ
  splits : ℕ → Finset ℕ
  mergeLabels : Finset ℕ
  merges : ℕ → Finset ℕ
  falsePositives : Finset ℕ
  falseNegatives : Finset ℕ
  hasBackgroundLabel : Bool

/-- Modelled from the spec: the full classification of both volumes into the
TolerantEditDistanceErrors structure. -/
def classifyVolumes (cp : ClassifierParams) (gtv recv : LabelVolume) :
    TolerantEditDistanceErrors where
  splitLabels := (labelsOf gtv).filter (fun g => classifyGt cp gtv recv g = .split)
  splits := fun g => gtPartners cp gtv recv g
  mergeLabels := (labelsOf recv).filter (fun r => classifyRec cp gtv recv r = .merge)
  merges := fun r => recPartners cp gtv recv r
  falsePositives := (labelsOf recv).filter (fun r => classifyRec cp gtv recv r = .falsePositive)
  falseNegatives := (labelsOf gtv).filter (fun g => classifyGt cp gtv recv g = .falseNegative)
  hasBackgroundLabel := cp.bgEnabled

/-- GT labels classified as matched. -/
def matchedGtLabels (cp : ClassifierParams) (gtv recv : LabelVolume) : Finset ℕ :=
  (labelsOf gtv).filter (fun g => classifyGt cp gtv recv g = .matched)

/-- Reconstruction labels classified as matched. -/
def matchedRecLabels (cp : ClassifierParams) (gtv recv : LabelVolume) : Finset ℕ :=
  (labelsOf recv).filter (fun r => classifyRec cp gtv recv r = .matched)

/-- Number of splits reported. -/
def numSplits (e : TolerantEditDistanceErrors) : ℕ := e.splitLabels.card

/-- Number of merges reported. -/
def numMerges (e : TolerantEditDistanceErrors) : ℕ := e.mergeLabels.card

/-- A 2-voxel test volume holding two adjacent one-voxel regions labeled 1
and 2 (no background). -/
def vol2 : LabelVolume where
  width := 2
  height := 1
  depth := 1
  data := fun x _ _ => if x = 0 then 1 else 2

/-- A 1-voxel test volume, used for shape-mismatch scenarios. -/
def vol1 : LabelVolume where
  width := 1
  height := 1
  depth := 1
  data := fun _ _ _ => 1

/-- ErrorReport parameters, mirroring ErrorReport::Parameters as filled in by
ted.cpp from the program options (headerOnly, reportTed, reportRand,
reportVoi, reportDetectionOverlap, ignoreBackground, growSlices). -/
structure Parameters where
  headerOnly : Bool
  reportTed : Bool
  reportRand : Bool
  reportVoi : Bool
  reportDetectionOverlap : Bool
  ignoreBackground : Bool
  growSlices : Bool
deriving DecidableEq

/-- Rendered values of the metrics that can appear in the report, one string
per column.  The TED summary counts come from the classifier; VOI, RAND and
detection overlap are sibling metrics the spec leaves out of algorithmic
scope, so their rendered values are carried opaquely. -/
structure MetricValues where
  tedSplits : String
  tedMerges : String
  tedFalsePositives : String
  tedFalseNegatives : String
  tedTotal : String
  voi : String
  rand : String
  detectionOverlap : String
deriving DecidableEq

/-- Rendered values of the externally computed metrics (VOI, RAND, detection
overlap), supplied to the report. -/
structure AuxMetrics where
  voi : String
  rand : String
  detectionOverlap : String
deriving DecidableEq

/-- Modelled from the spec: the ErrorReport implementation is not under the
sources.  The rendered metric values for one evaluation. -/
def metricValuesOf (e : TolerantEditDistanceErrors) (aux : AuxMetrics) : MetricValues where
  tedSplits := toString (numSplits e)
  tedMerges := toString (numMerges e)
  tedFalsePositives := toString e.falsePositives.card
  tedFalseNegatives := toString e.falseNegatives.card
  tedTotal := toString (numSplits e + numMerges e + e.falsePositives.card + e.falseNegatives.card)
  voi := aux.voi
  rand := aux.rand
  detectionOverlap := aux.detectionOverlap

/-- Modelled from the spec: the (column name, column value) pairs of the
report in the fixed column order, restricted to the enabled metrics. -/
def reportColumnPairs (p : Parameters) (m : MetricValues) : List (String × String) :=
  (if p.reportTed then
    [("TED splits", m.tedSplits), ("TED merges", m.tedMerges),
     ("TED false positives", m.tedFalsePositives),
     ("TED false negatives", m.tedFalseNegatives), ("TED total", m.tedTotal)]
   else []) ++
  (if p.reportVoi then [("VOI", m.voi)] else []) ++
  (if p.reportRand then [("RAND", m.rand)] else []) ++
  (if p.reportDetectionOverlap then [("detection overlap", m.detectionOverlap)] else [])

/-- Modelled from the spec: the header columns, produced independently of any
metric values (a header-only run computes no values at all). -/
def headerColumns (p : Parameters) : List String :=
  (if p.reportTed then
    ["TED splits", "TED merges", "TED false positives", "TED false negatives", "TED total"]
   else []) ++
  (if p.reportVoi then ["VOI"] else []) ++
  (if p.reportRand then ["RAND"] else []) ++
  (if p.reportDetectionOverlap then ["detection overlap"] else [])

/-- Modelled from the spec: the value columns of the single-line report. -/
def valueColumns (p : Parameters) (m : MetricValues) : List String :=
  (if p.reportTed then
    [m.tedSplits, m.tedMerges, m.tedFalsePositives, m.tedFalseNegatives, m.tedTotal]
   else []) ++
  (if p.reportVoi then [m.voi] else []) ++
  (if p.reportRand then [m.rand] else []) ++
  (if p.reportDetectionOverlap then [m.detectionOverlap] else [])

/-- Concatenation of a list of strings, in order. -/
def joinStrings : List String → String
  | [] => ""
  | s :: ss => s ++ joinStrings ss

/-- A list of column strings joined into one tab-separated line. -/
def tabSeparated : List String → String
  | [] => ""
  | [s] => s
  | s :: ss => s ++ "\t" ++ tabSeparated ss

/-- The tab-separated header line (output named "error report header"). -/
def headerLine (p : Parameters) : String :=
  tabSeparated (headerColumns p)

/-- The tab-separated single-line report (output named "error report"). -/
def reportLine (p : Parameters) (e : TolerantEditDistanceErrors) (aux : AuxMetrics) : String :=
  tabSeparated (valueColumns p (metricValuesOf e aux))

/-- Modelled from the spec: the human-readable multi-line report, one enabled
metric per line rendered as name, colon, value. -/
def humanReadableReport (p : Parameters) (e : TolerantEditDistanceErrors)
    (aux : AuxMetrics) : String :=
  joinStrings ((reportColumnPairs p (metricValuesOf e aux)).map
    (fun nv => nv.1 ++ ": " ++ nv.2 ++ "\n"))

/-- Fatal precondition violations of the evaluation. -/
inductive EvalError where
  | shapeMismatch
deriving DecidableEq

/-- Voxel dimensions of two volumes agree. -/
def sameDims (a b : LabelVolume) : Bool :=
  a.width == b.width && a.height == b.height && a.depth == b.depth

/-- Modelled from the spec: running the evaluation core on a volume pair.  A
dimension mismatch is a fatal precondition violation signalled as
ShapeMismatch before any classification happens. -/
def evaluatePair (cp : ClassifierParams) (gtv recv : LabelVolume) :
    Except EvalError TolerantEditDistanceErrors :=
  if sameDims gtv recv then .ok (classifyVolumes cp gtv recv) else .error .shapeMismatch

/-- Outcome of requesting the "ted corrected reconstruction" output from the
report (ted.cpp lines 226-237): the output may exist, the request may raise
the NoSuchOutput condition, or some other failure may occur. -/
inductive CorrectedFetch where
  | available
  | noSuchOutput
  | otherError
deriving DecidableEq

/-- Command-line options of ted.cpp relevant to the driver's control flow:
whether plotFileHeader is set, whether a plotFile was given, whether a
tedErrorFiles folder was given, and the metric switches forwarded to
ErrorReport::Parameters. -/
structure Options where
  plotFileHeader : Bool
  plotFile : Bool
  tedErrorFiles : Bool
  reportTed : Bool
  reportRand : Bool
  reportVoi : Bool
  reportDetectionOverlap : Bool
  ignoreBackground : Bool
  growSlices : Bool
deriving DecidableEq

/-- ErrorReport::Parameters as filled in from the options (ted.cpp lines
176-183). -/
def paramsOf (o : Options) : Parameters where
  headerOnly := o.plotFileHeader
  reportTed := o.reportTed
  reportRand := o.reportRand
  reportVoi := o.reportVoi
  reportDetectionOverlap := o.reportDetectionOverlap
  ignoreBackground := o.ignoreBackground
  growSlices := o.growSlices

/-- Observable steps of one run of the driver. -/
inductive Event where
  | readGroundTruth
  | readReconstruction
  | classifyErrors
  | writeCorrected
  | writeHumanReport
  | writeSplitsFile
  | writeMergesFile
  | writeFpsFile
  | writeFnsFile
  | appendPlot
deriving DecidableEq

/-- Result of one run of the driver: the ordered trace of its observable
steps, the final content of the plot file (threaded from its prior content,
since the file is opened for appending), the texts written to the optional
outputs, and whether the run finished without reaching the outer exception
handler. -/
structure RunOutput where
  trace : List Event
  plotFile : String
  humanReport : Option String
  splitsFile : Option String
  mergesFile : Option String
  fpsFile : Option String
  fnsFile : Option String
  exitOk : Bool
deriving DecidableEq

/-- Labels of a finite set listed in increasing order, as the iteration
order of the std::set inside TolerantEditDistanceErrors. -/
def sortedLabels (s : Finset ℕ) : List ℕ :=
  s.sort (fun a b => a ≤ b)

/-- One line of splits.dat (ted.cpp lines 249-254): the GT label, a tab,
then every reconstruction label it was split into followed by a tab each,
then the line end. -/
def splitLine (g : ℕ) (rs : List ℕ) : String :=
  toString g ++ "\t" ++ joinStrings (rs.map (fun r => toString r ++ "\t")) ++ "\n"

/-- Content of splits.dat: one line per split label (ted.cpp lines 248-254). -/
def splitsFileContent (e : TolerantEditDistanceErrors) : String :=
  joinStrings ((sortedLabels e.splitLabels).map
    (fun g => splitLine g (sortedLabels (e.splits g))))

/-- Content of merges.dat: one line per merge label, the reconstruction
label first and then the GT labels merged into it (ted.cpp lines 255-261). -/
def mergesFileContent (e : TolerantEditDistanceErrors) : String :=
  joinStrings ((sortedLabels e.mergeLabels).map
    (fun r => splitLine r (sortedLabels (e.merges r))))

/-- Content of fps.dat: one false-positive label per line (ted.cpp lines
264-266). -/
def fpsFileContent (e : TolerantEditDistanceErrors) : String :=
  joinStrings ((sortedLabels e.falsePositives).map (fun l => toString l ++ "\n"))

/-- Content of fns.dat: one false-negative label per line (ted.cpp lines
267-269). -/
def fnsFileContent (e : TolerantEditDistanceErrors) : String :=
  joinStrings ((sortedLabels e.falseNegatives).map (fun l => toString l ++ "\n"))

/-- Embedding of main of ted.cpp after option parsing.  A header-only run
appends the header line to the plot file and returns at once (lines
187-194).  Otherwise the two volumes are read (lines 198-202) and the
report is evaluated; a shape mismatch escapes to the outer handler (line
282) before any output is produced.  The corrected-reconstruction write is
attempted first (lines 226-237), its NoSuchOutput failure being swallowed
locally while any other failure escapes to the outer handler.  Then come the
human-readable report (lines 240-241), the listing files (lines 243-271,
the fps/fns pair only when the errors carry a background label), and the
appended single-line report (lines 273-280). -/
def runMain (o : Options) (cp : ClassifierParams) (gtv recv : LabelVolume)
    (aux : AuxMetrics) (corr : CorrectedFetch) (plot0 : String) : RunOutput :=
  let p := paramsOf o
  if o.plotFileHeader then
    { trace := [.appendPlot], plotFile := plot0 ++ headerLine p ++ "\n",
      humanReport := none, splitsFile := none, mergesFile := none,
      fpsFile := none, fnsFile := none, exitOk := true }
  else
    match evaluatePair cp gtv recv with
    | .error _ =>
      { trace := [.readGroundTruth, .readReconstruction], plotFile := plot0,
        humanReport := none, splitsFile := none, mergesFile := none,
        fpsFile := none, fnsFile := none, exitOk := false }
    | .ok e =>
      match corr with
      | .otherError =>
        { trace := [.readGroundTruth, .readReconstruction, .classifyErrors],
          plotFile := plot0, humanReport := none, splitsFile := none,
          mergesFile := none, fpsFile := none, fnsFile := none, exitOk := false }
      | c =>
        { trace :=
            [.readGroundTruth, .readReconstruction, .classifyErrors] ++
            (if c = .available then [.writeCorrected] else []) ++
            [.writeHumanReport] ++
            (if o.tedErrorFiles then
              [.writeSplitsFile, .writeMergesFile] ++
              (if e.hasBackgroundLabel then [.writeFpsFile, .writeFnsFile] else [])
             else []) ++
            (if o.plotFile then [.appendPlot] else []),
          plotFile :=
            if o.plotFile then plot0 ++ reportLine p e aux ++ "\n" else plot0,
          humanReport := some (humanReadableReport p e aux),
          splitsFile := if o.tedErrorFiles then some (splitsFileContent e) else none,
          mergesFile := if o.tedErrorFiles then some (mergesFileContent e) else none,
          fpsFile :=
            if o.tedErrorFiles && e.hasBackgroundLabel then some (fpsFileContent e) else none,
          fnsFile :=
            if o.tedErrorFiles && e.hasBackgroundLabel then some (fnsFileContent e) else none,
          exitOk := true }


/-- A label occurs in a volume exactly when its region has nonzero voxel
count. -/
lemma mem_labelsOf_iff (v : LabelVolume) (l : ℕ) :
    l ∈ labelsOf v ↔ regionSize v l ≠ 0 := by
  simp only [labelsOf, regionSize, Finset.mem_image, Ne, Finset.card_eq_zero,
    ← Finset.not_nonempty_iff_eq_empty, not_not, Finset.filter_nonempty_iff]

/-- Chebyshev distance of a position to itself is zero. -/
lemma chebDist_self (p : ℕ × ℕ × ℕ) : chebDist p p = 0 := by
  simp [chebDist, natDiff]

/-- Chebyshev distance vanishes exactly on equal positions. -/
lemma chebDist_eq_zero_iff (p q : ℕ × ℕ × ℕ) : chebDist p q = 0 ↔ p = q := by
  obtain ⟨a, b, c⟩ := p
  obtain ⟨d, e, f⟩ := q
  simp only [chebDist, natDiff, Nat.max_eq_zero_iff, Prod.mk.injEq]
  omega

/-- With tolerance zero the tolerant overlap of a volume with itself is the
region size on the diagonal and zero elsewhere. -/
lemma tolOverlap_self_zero (v : LabelVolume) (g r : ℕ) :
    tolOverlap v v 0 g r = if g = r then regionSize v g else 0 := by
  unfold tolOverlap
  have hcong : ∀ p ∈ positions v,
      ((labelAt v p = r ∧ ∃ q ∈ positions v, labelAt v q = g ∧ chebDist p q ≤ 0) ↔
        (labelAt v p = r ∧ labelAt v p = g)) := by
    intro p hp
    constructor
    · rintro ⟨h1, q, hq, hlq, hd⟩
      have h0 : q = p := ((chebDist_eq_zero_iff p q).mp (Nat.le_zero.mp hd)).symm
      subst h0
      exact ⟨h1, hlq⟩
    · rintro ⟨h1, h2⟩
      exact ⟨h1, p, hp, h2, by simp [chebDist_self]⟩
  rw [Finset.filter_congr hcong]
  by_cases hgr : g = r
  · subst hgr
    simp [regionSize]
  · rw [if_neg hgr, Finset.card_eq_zero, Finset.filter_eq_empty_iff]
    rintro p _ ⟨h1, h2⟩
    exact hgr (h2.symm.trans h1)

/-- At tolerance zero a label of a volume compared with itself has exactly
itself as substantial partner on the GT side. -/
lemma gtPartners_self_zero (cp : ClassifierParams) (v : LabelVolume) (g : ℕ)
    (ht : cp.t = 0) (hnum : 0 < cp.num) (hden : cp.num ≤ cp.den)
    (hg : g ∈ labelsOf v) :
    gtPartners cp v v g = {g} := by
  unfold gtPartners
  rw [ht]
  have hsz : regionSize v g ≠ 0 := (mem_labelsOf_iff v g).mp hg
  have hn : cp.num ≠ 0 := Nat.pos_iff_ne_zero.mp hnum
  have hcong : ∀ r ∈ labelsOf v,
      ((cp.num * regionSize v g ≤ cp.den * tolOverlap v v 0 g r) ↔ r = g) := by
    intro r _
    rw [tolOverlap_self_zero]
    by_cases hgr : g = r
    · subst hgr
      simp only [if_pos rfl, eq_self_iff_true, iff_true]
      exact Nat.mul_le_mul hden le_rfl
    · simp [if_neg hgr, Nat.le_zero, Nat.mul_eq_zero, hsz, hn, Ne.symm hgr]
  rw [Finset.filter_congr hcong, Finset.filter_eq', if_pos hg]

/-- At tolerance zero a label of a volume compared with itself has exactly
itself as substantial partner on the reconstruction side. -/
lemma recPartners_self_zero (cp : ClassifierParams) (v : LabelVolume) (r : ℕ)
    (ht : cp.t = 0) (hnum : 0 < cp.num) (hden : cp.num ≤ cp.den)
    (hr : r ∈ labelsOf v) :
    recPartners cp v v r = {r} := by
  unfold recPartners
  rw [ht]
  have hsz : regionSize v r ≠ 0 := (mem_labelsOf_iff v r).mp hr
  have hn : cp.num ≠ 0 := Nat.pos_iff_ne_zero.mp hnum
  have hcong : ∀ g ∈ labelsOf v,
      ((cp.num * regionSize v r ≤ cp.den * tolOverlap v v 0 g r) ↔ g = r) := by
    intro g _
    rw [tolOverlap_self_zero]
    by_cases hgr : g = r
    · subst hgr
      simp only [if_pos rfl, eq_self_iff_true, iff_true]
      exact Nat.mul_le_mul hden le_rfl
    · simp [if_neg hgr, Nat.le_zero, Nat.mul_eq_zero, hsz, hn, hgr]
  rw [Finset.filter_congr hcong, Finset.filter_eq', if_pos hr]

/-- At tolerance zero every occurring label of a volume compared with itself
is classified matched on the GT side. -/
lemma classifyGt_self_zero (cp : ClassifierParams) (v : LabelVolume) (g : ℕ)
    (ht : cp.t = 0) (hnum : 0 < cp.num) (hden : cp.num ≤ cp.den)
    (hg : g ∈ labelsOf v) :
    classifyGt cp v v g = .matched := by
  unfold classifyGt
  rw [gtPartners_self_zero cp v g ht hnum hden hg]
  have h1 : ¬ (cp.bgEnabled = true ∧ g ≠ 0 ∧ ({g} : Finset ℕ) = {0}) := by
    rintro ⟨_, hg0, hset⟩
    exact hg0 (Finset.singleton_inj.mp hset)
  have h2 : ¬ 1 < ({g} : Finset ℕ).card := by simp
  simp [h1, h2]

/-- At tolerance zero every occurring label of a volume compared with itself
is classified matched on the reconstruction side. -/
lemma classifyRec_self_zero (cp : ClassifierParams) (v : LabelVolume) (r : ℕ)
    (ht : cp.t = 0) (hnum : 0 < cp.num) (hden : cp.num ≤ cp.den)
    (hr : r ∈ labelsOf v) :
    classifyRec cp v v r = .matched := by
  unfold classifyRec
  rw [recPartners_self_zero cp v r ht hnum hden hr]
  have h1 : ¬ (cp.bgEnabled = true ∧ r ≠ 0 ∧ ({r} : Finset ℕ) = {0}) := by
    rintro ⟨_, hr0, hset⟩
    exact hr0 (Finset.singleton_inj.mp hset)
  have h2 : ¬ 1 < ({r} : Finset ℕ).card := by simp
  simp [h1, h2]

/-- Exactly one of three propositions holds. -/
def exactlyOne (a b c : Prop) : Prop :=
  (a ∧ ¬ b ∧ ¬ c) ∨ (¬ a ∧ b ∧ ¬ c) ∨ (¬ a ∧ ¬ b ∧ c)

/-- C1: every GT label with nonzero voxel count is assigned by the classifier
to exactly one of matched, split-source, false-negative; symmetrically every
reconstruction label with nonzero voxel count is assigned to exactly one of
matched, merge-target, false-positive; no label appears in more than one
category and none is left unclassified. -/
theorem classifier_partitions_labels (cp : ClassifierParams) (gtv recv : LabelVolume)
    (g r : ℕ) (hg : regionSize gtv g ≠ 0) (hr : regionSize recv r ≠ 0) :
    exactlyOne (g ∈ matchedGtLabels cp gtv recv)
      (g ∈ (classifyVolumes cp gtv recv).splitLabels)
      (g ∈ (classifyVolumes cp gtv recv).falseNegatives) ∧
    exactlyOne (r ∈ matchedRecLabels cp gtv recv)
      (r ∈ (classifyVolumes cp gtv recv).mergeLabels)
      (r ∈ (classifyVolumes cp gtv recv).falsePositives) := by
  have hg' : g ∈ labelsOf gtv := (mem_labelsOf_iff gtv g).mpr hg
  have hr' : r ∈ labelsOf recv := (mem_labelsOf_iff recv r).mpr hr
  constructor
  · cases hc : classifyGt cp gtv recv g <;>
      simp [exactlyOne, matchedGtLabels, classifyVolumes, Finset.mem_filter, hg', hc]
  · cases hc : classifyRec cp gtv recv r <;>
      simp [exactlyOne, matchedRecLabels, classifyVolumes, Finset.mem_filter, hr', hc]

/-- Witness for C1: in the identity evaluation of the two-region volume at
tolerance zero, label 1 on the GT side and label 2 on the reconstruction
side each land in exactly one category. -/
theorem classifier_partitions_labels_witness :
    (regionSize vol2 1 ≠ 0 ∧ regionSize vol2 2 ≠ 0) ∧
    (exactlyOne (1 ∈ matchedGtLabels ⟨0, 1, 1, false⟩ vol2 vol2)
      (1 ∈ (classifyVolumes ⟨0, 1, 1, false⟩ vol2 vol2).splitLabels)
      (1 ∈ (classifyVolumes ⟨0, 1, 1, false⟩ vol2 vol2).falseNegatives) ∧
    exactlyOne (2 ∈ matchedRecLabels ⟨0, 1, 1, false⟩ vol2 vol2)
      (2 ∈ (classifyVolumes ⟨0, 1, 1, false⟩ vol2 vol2).mergeLabels)
      (2 ∈ (classifyVolumes ⟨0, 1, 1, false⟩ vol2 vol2).falsePositives)) :=
  ⟨by decide,
   classifier_partitions_labels ⟨0, 1, 1, false⟩ vol2 vol2 1 2 (by decide) (by decide)⟩

/-- C2 counterexample: evaluating the two-region volume against itself at
tolerance 1 (threshold fraction 1) reports two splits and two merges, so
the claim that identical volumes give zero errors at every tolerance is
false. -/
theorem identity_tolerance_counterexample :
    ¬ (numSplits (classifyVolumes ⟨1, 1, 1, false⟩ vol2 vol2) = 0 ∧
       numMerges (classifyVolumes ⟨1, 1, 1, false⟩ vol2 vol2) = 0 ∧
       (classifyVolumes ⟨1, 1, 1, false⟩ vol2 vol2).falsePositives = ∅ ∧
       (classifyVolumes ⟨1, 1, 1, false⟩ vol2 vol2).falseNegatives = ∅) := by
  decide

/-- C2 (amended): if GT and reconstruction volumes are identical, the
classifier at tolerance zero, for any threshold fraction in the interval
from zero exclusive to one inclusive, reports zero splits, zero merges,
zero false positives and zero false negatives. -/
theorem identity_zero_errors_amended (cp : ClassifierParams) (v : LabelVolume)
    (ht : cp.t = 0) (hnum : 0 < cp.num) (hden : cp.num ≤ cp.den) :
    numSplits (classifyVolumes cp v v) = 0 ∧
    numMerges (classifyVolumes cp v v) = 0 ∧
    (classifyVolumes cp v v).falsePositives = ∅ ∧
    (classifyVolumes cp v v).falseNegatives = ∅ := by
  have hsplit : (classifyVolumes cp v v).splitLabels = ∅ := by
    simp only [classifyVolumes]
    rw [Finset.filter_eq_empty_iff]
    intro g hg
    rw [classifyGt_self_zero cp v g ht hnum hden hg]
    simp
  have hmerge : (classifyVolumes cp v v).mergeLabels = ∅ := by
    simp only [classifyVolumes]
    rw [Finset.filter_eq_empty_iff]
    intro r hr
    rw [classifyRec_self_zero cp v r ht hnum hden hr]
    simp
  refine ⟨by simp [numSplits, hsplit], by simp [numMerges, hmerge], ?_, ?_⟩
  · simp only [classifyVolumes]
    rw [Finset.filter_eq_empty_iff]
    intro r hr
    rw [classifyRec_self_zero cp v r ht hnum hden hr]
    simp
  · simp only [classifyVolumes]
    rw [Finset.filter_eq_empty_iff]
    intro g hg
    rw [classifyGt_self_zero cp v g ht hnum hden hg]
    simp

/-- Witness for C2 (amended): the identity evaluation of the two-region
volume at tolerance zero reports no errors at all. -/
theorem identity_zero_errors_amended_witness :
    ((⟨0, 1, 1, false⟩ : ClassifierParams).t = 0 ∧
     0 < (⟨0, 1, 1, false⟩ : ClassifierParams).num ∧
     (⟨0, 1, 1, false⟩ : ClassifierParams).num ≤ (⟨0, 1, 1, false⟩ : ClassifierParams).den) ∧
    (numSplits (classifyVolumes ⟨0, 1, 1, false⟩ vol2 vol2) = 0 ∧
     numMerges (classifyVolumes ⟨0, 1, 1, false⟩ vol2 vol2) = 0 ∧
     (classifyVolumes ⟨0, 1, 1, false⟩ vol2 vol2).falsePositives = ∅ ∧
     (classifyVolumes ⟨0, 1, 1, false⟩ vol2 vol2).falseNegatives = ∅) :=
  ⟨by decide, identity_zero_errors_amended ⟨0, 1, 1, false⟩ vol2 rfl (by decide) (by decide)⟩

/-- C3 counterexample: for the two-region volume evaluated against itself,
raising the tolerance from 0 to 1 raises the number of reported splits from
0 to 2 and of merges from 0 to 2, so the claim that larger tolerance never
gives more splits or merges is false. -/
theorem tolerance_monotonicity_counterexample :
    ¬ (numSplits (classifyVolumes ⟨1, 1, 1, false⟩ vol2 vol2) ≤
         numSplits (classifyVolumes ⟨0, 1, 1, false⟩ vol2 vol2) ∧
       numMerges (classifyVolumes ⟨1, 1, 1, false⟩ vol2 vol2) ≤
         numMerges (classifyVolumes ⟨0, 1, 1, false⟩ vol2 vol2)) := by
  decide

/-- C3 (amended): increasing the tolerance radius never decreases the
tolerant overlap credited to any GT/reconstruction label pair and never
shrinks the substantial-partner set of any label on either side (more
boundary disagreement gets absorbed, never less); the reported split and
merge counts themselves are not monotone in the tolerance. -/
theorem tolerance_absorption_monotone (gtv recv : LabelVolume)
    (t1 t2 num den : ℕ) (b : Bool) (g r : ℕ) (h : t1 ≤ t2) :
    tolOverlap gtv recv t1 g r ≤ tolOverlap gtv recv t2 g r ∧
    gtPartners ⟨t1, num, den, b⟩ gtv recv g ⊆ gtPartners ⟨t2, num, den, b⟩ gtv recv g ∧
    recPartners ⟨t1, num, den, b⟩ gtv recv r ⊆ recPartners ⟨t2, num, den, b⟩ gtv recv r := by
  have hov : ∀ g' r', tolOverlap gtv recv t1 g' r' ≤ tolOverlap gtv recv t2 g' r' := by
    intro g' r'
    apply Finset.card_le_card
    intro p hp
    simp only [Finset.mem_filter] at hp ⊢
    obtain ⟨hpp, h1, q, hq, h2, h3⟩ := hp
    exact ⟨hpp, h1, q, hq, h2, le_trans h3 h⟩
  refine ⟨hov g r, ?_, ?_⟩
  · intro x hx
    simp only [gtPartners, Finset.mem_filter] at hx ⊢
    exact ⟨hx.1, le_trans hx.2 (Nat.mul_le_mul le_rfl (hov g x))⟩
  · intro x hx
    simp only [recPartners, Finset.mem_filter] at hx ⊢
    exact ⟨hx.1, le_trans hx.2 (Nat.mul_le_mul le_rfl (hov x r))⟩

/-- Witness for C3 (amended): raising the tolerance from 0 to 1 on the
two-region volume enlarges the overlap and both partner sets of the labels
1 and 2. -/
theorem tolerance_absorption_monotone_witness :
    0 ≤ 1 ∧
    (tolOverlap vol2 vol2 0 1 2 ≤ tolOverlap vol2 vol2 1 1 2 ∧
     gtPartners ⟨0, 1, 1, false⟩ vol2 vol2 1 ⊆ gtPartners ⟨1, 1, 1, false⟩ vol2 vol2 1 ∧
     recPartners ⟨0, 1, 1, false⟩ vol2 vol2 2 ⊆ recPartners ⟨1, 1, 1, false⟩ vol2 vol2 2) :=
  ⟨by decide, tolerance_absorption_monotone vol2 vol2 0 1 1 1 false 1 2 (by decide)⟩

/-- Concrete options for a full run: header off, plot file, listing folder
and every metric switch on, background options off. -/
def optsRun : Options :=
  ⟨false, true, true, true, true, true, true, false, false⟩

/-- Concrete options for a header-only run. -/
def optsHeader : Options :=
  ⟨true, true, true, true, true, true, true, false, false⟩

/-- Concrete rendered values of the externally computed metrics. -/
def auxSample : AuxMetrics := ⟨"0.5", "0.9", "0.8"⟩

/-- The background flag of the classification result is the configured
background flag. -/
lemma classifyVolumes_bg (cp : ClassifierParams) (gtv recv : LabelVolume) :
    (classifyVolumes cp gtv recv).hasBackgroundLabel = cp.bgEnabled := rfl

/-- Unfolding step of tabSeparated on a list with at least two entries. -/
lemma tabSeparated_cons (s u : String) (ss : List String) :
    tabSeparated (s :: u :: ss) = s ++ "\t" ++ tabSeparated (u :: ss) := by
  simp [tabSeparated]

/-- A head string followed by a tab and then every further string followed
by a tab each is the tab-separated join of all of them plus a final tab. -/
lemma tabbed_run_eq (x : ℕ) (xs : List ℕ) :
    toString x ++ "\t" ++ joinStrings (xs.map (fun r => toString r ++ "\t")) =
      tabSeparated ((x :: xs).map (fun l => toString l)) ++ "\t" := by
  induction xs generalizing x with
  | nil => simp [joinStrings, tabSeparated]
  | cons y ys ih =>
    simp only [List.map_cons, joinStrings]
    rw [ih y, List.map_cons, tabSeparated_cons]
    simp [String.append_assoc]

/-- A listing line consists of the head label and the partner labels,
tab-separated, with a final tab before the line end. -/
lemma splitLine_tab_separated (g : ℕ) (rs : List ℕ) :
    splitLine g rs =
      tabSeparated ((g :: rs).map (fun l => toString l)) ++ "\t" ++ "\n" := by
  rw [splitLine, tabbed_run_eq]

/-- C4: when the corrected-reconstruction output was never produced, the
NoSuchOutput condition raised at the requesting call site is caught locally
and is not a failure of the run: the human-readable report, the per-error
listing files and the appended single-line report are still produced
afterwards, only the corrected-reconstruction write is skipped. -/
theorem missing_corrected_output_recoverable (o : Options) (cp : ClassifierParams)
    (gtv recv : LabelVolume) (aux : AuxMetrics) (plot0 : String)
    (hh : o.plotFileHeader = false) (hted : o.tedErrorFiles = true)
    (hplot : o.plotFile = true) (hdims : sameDims gtv recv = true) :
    (runMain o cp gtv recv aux .noSuchOutput plot0).exitOk = true ∧
    (runMain o cp gtv recv aux .noSuchOutput plot0).humanReport =
      some (humanReadableReport (paramsOf o) (classifyVolumes cp gtv recv) aux) ∧
    (runMain o cp gtv recv aux .noSuchOutput plot0).splitsFile =
      some (splitsFileContent (classifyVolumes cp gtv recv)) ∧
    (runMain o cp gtv recv aux .noSuchOutput plot0).mergesFile =
      some (mergesFileContent (classifyVolumes cp gtv recv)) ∧
    (runMain o cp gtv recv aux .noSuchOutput plot0).plotFile =
      plot0 ++ reportLine (paramsOf o) (classifyVolumes cp gtv recv) aux ++ "\n" ∧
    Event.writeHumanReport ∈ (runMain o cp gtv recv aux .noSuchOutput plot0).trace ∧
    Event.writeCorrected ∉ (runMain o cp gtv recv aux .noSuchOutput plot0).trace := by
  cases hb : cp.bgEnabled <;>
    simp [runMain, hh, hted, hplot, evaluatePair, hdims, classifyVolumes_bg, hb]

/-- Witness for C4: a run with all outputs requested, a NoSuchOutput
corrected-reconstruction fetch and the identity volume pair still produces
the report, the listing files and the plot line. -/
theorem missing_corrected_output_recoverable_witness :
    (optsRun.plotFileHeader = false ∧ optsRun.tedErrorFiles = true ∧
     optsRun.plotFile = true ∧ sameDims vol2 vol2 = true) ∧
    ((runMain optsRun ⟨0, 1, 1, false⟩ vol2 vol2 auxSample .noSuchOutput "").exitOk = true ∧
     (runMain optsRun ⟨0, 1, 1, false⟩ vol2 vol2 auxSample .noSuchOutput "").humanReport =
       some (humanReadableReport (paramsOf optsRun)
         (classifyVolumes ⟨0, 1, 1, false⟩ vol2 vol2) auxSample) ∧
     (runMain optsRun ⟨0, 1, 1, false⟩ vol2 vol2 auxSample .noSuchOutput "").splitsFile =
       some (splitsFileContent (classifyVolumes ⟨0, 1, 1, false⟩ vol2 vol2)) ∧
     (runMain optsRun ⟨0, 1, 1, false⟩ vol2 vol2 auxSample .noSuchOutput "").mergesFile =
       some (mergesFileContent (classifyVolumes ⟨0, 1, 1, false⟩ vol2 vol2)) ∧
     (runMain optsRun ⟨0, 1, 1, false⟩ vol2 vol2 auxSample .noSuchOutput "").plotFile =
       "" ++ reportLine (paramsOf optsRun)
         (classifyVolumes ⟨0, 1, 1, false⟩ vol2 vol2) auxSample ++ "\n" ∧
     Event.writeHumanReport ∈
       (runMain optsRun ⟨0, 1, 1, false⟩ vol2 vol2 auxSample .noSuchOutput "").trace ∧
     Event.writeCorrected ∉
       (runMain optsRun ⟨0, 1, 1, false⟩ vol2 vol2 auxSample .noSuchOutput "").trace) :=
  ⟨by decide,
   missing_corrected_output_recoverable optsRun ⟨0, 1, 1, false⟩ vol2 vol2 auxSample ""
     rfl rfl rfl (by decide)⟩

/-- C5: when the header-only parameter is set, the run appends the error
report header line to the plot file and terminates at once: neither volume
is read and no classification happens — the whole observable behaviour is
that single append. -/
theorem header_only_no_processing (o : Options) (cp : ClassifierParams)
    (gtv recv : LabelVolume) (aux : AuxMetrics) (corr : CorrectedFetch)
    (plot0 : String) (hh : o.plotFileHeader = true) :
    runMain o cp gtv recv aux corr plot0 =
      { trace := [.appendPlot], plotFile := plot0 ++ headerLine (paramsOf o) ++ "\n",
        humanReport := none, splitsFile := none, mergesFile := none,
        fpsFile := none, fnsFile := none, exitOk := true } ∧
    Event.readGroundTruth ∉ (runMain o cp gtv recv aux corr plot0).trace ∧
    Event.readReconstruction ∉ (runMain o cp gtv recv aux corr plot0).trace ∧
    Event.classifyErrors ∉ (runMain o cp gtv recv aux corr plot0).trace := by
  refine ⟨?_, ?_, ?_, ?_⟩ <;> simp [runMain, hh]

/-- Witness for C5: a concrete header-only run on the two test volumes. -/
theorem header_only_no_processing_witness :
    optsHeader.plotFileHeader = true ∧
    (runMain optsHeader ⟨0, 1, 1, false⟩ vol2 vol1 auxSample .noSuchOutput "before\n" =
      { trace := [.appendPlot],
        plotFile := "before\n" ++ headerLine (paramsOf optsHeader) ++ "\n",
        humanReport := none, splitsFile := none, mergesFile := none,
        fpsFile := none, fnsFile := none, exitOk := true } ∧
     Event.readGroundTruth ∉
       (runMain optsHeader ⟨0, 1, 1, false⟩ vol2 vol1 auxSample .noSuchOutput "before\n").trace ∧
     Event.readReconstruction ∉
       (runMain optsHeader ⟨0, 1, 1, false⟩ vol2 vol1 auxSample .noSuchOutput "before\n").trace ∧
     Event.classifyErrors ∉
       (runMain optsHeader ⟨0, 1, 1, false⟩ vol2 vol1 auxSample .noSuchOutput "before\n").trace) :=
  ⟨rfl,
   header_only_no_processing optsHeader ⟨0, 1, 1, false⟩ vol2 vol1 auxSample
     .noSuchOutput "before\n" rfl⟩

/-- C6: for every configuration of enabled metrics, the header line has
exactly the same column count and column order as the single-line value
report under that configuration: both lists are the two projections of one
configuration-ordered list of name/value pairs. -/
theorem header_value_columns_aligned (p : Parameters) (m : MetricValues) :
    headerColumns p = (reportColumnPairs p m).map Prod.fst ∧
    valueColumns p m = (reportColumnPairs p m).map Prod.snd ∧
    (headerColumns p).length = (valueColumns p m).length := by
  obtain ⟨h0, t1, r1, v1, d1, i1, g1⟩ := p
  cases t1 <;> cases r1 <;> cases v1 <;> cases d1 <;>
    simp [headerColumns, valueColumns, reportColumnPairs]

/-- C7: a GT/reconstruction pair with differing voxel dimensions makes the
evaluation fail with the ShapeMismatch precondition violation, which
escapes to the outer handler at once: no classification, no report, no
listing file and no plot append happens for that pair. -/
theorem shape_mismatch_aborts (o : Options) (cp : ClassifierParams)
    (gtv recv : LabelVolume) (aux : AuxMetrics) (corr : CorrectedFetch) (plot0 : String)
    (hh : o.plotFileHeader = false) (hdims : sameDims gtv recv = false) :
    evaluatePair cp gtv recv = .error .shapeMismatch ∧
    runMain o cp gtv recv aux corr plot0 =
      { trace := [.readGroundTruth, .readReconstruction], plotFile := plot0,
        humanReport := none, splitsFile := none, mergesFile := none,
        fpsFile := none, fnsFile := none, exitOk := false } := by
  have he : evaluatePair cp gtv recv = .error .shapeMismatch := by
    simp [evaluatePair, hdims]
  exact ⟨he, by simp [runMain, hh, he]⟩

/-- Witness for C7: the 2-voxel and 1-voxel volumes differ in width, so
their evaluation aborts with ShapeMismatch and produces nothing. -/
theorem shape_mismatch_aborts_witness :
    (optsRun.plotFileHeader = false ∧ sameDims vol2 vol1 = false) ∧
    (evaluatePair ⟨0, 1, 1, false⟩ vol2 vol1 = .error .shapeMismatch ∧
     runMain optsRun ⟨0, 1, 1, false⟩ vol2 vol1 auxSample .available "kept" =
       { trace := [.readGroundTruth, .readReconstruction], plotFile := "kept",
         humanReport := none, splitsFile := none, mergesFile := none,
         fpsFile := none, fnsFile := none, exitOk := false }) :=
  ⟨by decide,
   shape_mismatch_aborts optsRun ⟨0, 1, 1, false⟩ vol2 vol1 auxSample .available "kept"
     rfl (by decide)⟩

/-- C8: false positives and false negatives are conditional on background
handling — without a background label the classifier populates neither set,
the errors structure carries no background label, and the run writes
neither fps.dat nor fns.dat even when the listing files are requested. -/
theorem background_gates_fp_fn (o : Options) (cp : ClassifierParams)
    (gtv recv : LabelVolume) (aux : AuxMetrics) (corr : CorrectedFetch) (plot0 : String)
    (hbg : cp.bgEnabled = false) (hh : o.plotFileHeader = false)
    (hted : o.tedErrorFiles = true) (hdims : sameDims gtv recv = true)
    (hcorr : corr ≠ .otherError) :
    (classifyVolumes cp gtv recv).falsePositives = ∅ ∧
    (classifyVolumes cp gtv recv).falseNegatives = ∅ ∧
    (classifyVolumes cp gtv recv).hasBackgroundLabel = false ∧
    (runMain o cp gtv recv aux corr plot0).fpsFile = none ∧
    (runMain o cp gtv recv aux corr plot0).fnsFile = none ∧
    Event.writeFpsFile ∉ (runMain o cp gtv recv aux corr plot0).trace ∧
    Event.writeFnsFile ∉ (runMain o cp gtv recv aux corr plot0).trace := by
  have hfp : (classifyVolumes cp gtv recv).falsePositives = ∅ := by
    simp only [classifyVolumes]
    rw [Finset.filter_eq_empty_iff]
    intro r _
    unfold classifyRec
    rw [hbg]
    by_cases h : 1 < (recPartners cp gtv recv r).card <;> simp [h]
  have hfn : (classifyVolumes cp gtv recv).falseNegatives = ∅ := by
    simp only [classifyVolumes]
    rw [Finset.filter_eq_empty_iff]
    intro g _
    unfold classifyGt
    rw [hbg]
    by_cases h : 1 < (gtPartners cp gtv recv g).card <;> simp [h]
  refine ⟨hfp, hfn, by simp [classifyVolumes_bg, hbg], ?_, ?_, ?_, ?_⟩ <;>
    cases corr <;> first
      | exact absurd rfl hcorr
      | simp [runMain, hh, hted, evaluatePair, hdims, classifyVolumes_bg, hbg]

/-- Witness for C8: a background-free identity run writes neither fps.dat
nor fns.dat and both error sets are empty. -/
theorem background_gates_fp_fn_witness :
    ((⟨1, 1, 1, false⟩ : ClassifierParams).bgEnabled = false ∧
     optsRun.plotFileHeader = false ∧ optsRun.tedErrorFiles = true ∧
     sameDims vol2 vol2 = true ∧ CorrectedFetch.available ≠ CorrectedFetch.otherError) ∧
    ((classifyVolumes ⟨1, 1, 1, false⟩ vol2 vol2).falsePositives = ∅ ∧
     (classifyVolumes ⟨1, 1, 1, false⟩ vol2 vol2).falseNegatives = ∅ ∧
     (classifyVolumes ⟨1, 1, 1, false⟩ vol2 vol2).hasBackgroundLabel = false ∧
     (runMain optsRun ⟨1, 1, 1, false⟩ vol2 vol2 auxSample .available "").fpsFile = none ∧
     (runMain optsRun ⟨1, 1, 1, false⟩ vol2 vol2 auxSample .available "").fnsFile = none ∧
     Event.writeFpsFile ∉
       (runMain optsRun ⟨1, 1, 1, false⟩ vol2 vol2 auxSample .available "").trace ∧
     Event.writeFnsFile ∉
       (runMain optsRun ⟨1, 1, 1, false⟩ vol2 vol2 auxSample .available "").trace) :=
  ⟨by decide,
   background_gates_fp_fn optsRun ⟨1, 1, 1, false⟩ vol2 vol2 auxSample .available ""
     rfl rfl rfl (by decide) (by decide)⟩

/-- C9: with the listing files requested, the run writes splits.dat and
merges.dat rendered from the errors structure; a split line consists of the
GT label followed by the reconstruction labels it was split into,
tab-separated (with the driver's final tab before the line end), a merge
line of the reconstruction label followed by the GT labels merged into it
in the same shape, and fps.dat and fns.dat carry one label per line. -/
theorem error_listing_line_format (o : Options) (cp : ClassifierParams)
    (gtv recv : LabelVolume) (aux : AuxMetrics) (corr : CorrectedFetch) (plot0 : String)
    (g r : ℕ)
    (hh : o.plotFileHeader = false) (hted : o.tedErrorFiles = true)
    (hdims : sameDims gtv recv = true) (hcorr : corr ≠ .otherError) :
    (runMain o cp gtv recv aux corr plot0).splitsFile =
      some (splitsFileContent (classifyVolumes cp gtv recv)) ∧
    (runMain o cp gtv recv aux corr plot0).mergesFile =
      some (mergesFileContent (classifyVolumes cp gtv recv)) ∧
    splitLine g (sortedLabels ((classifyVolumes cp gtv recv).splits g)) =
      tabSeparated ((g :: sortedLabels ((classifyVolumes cp gtv recv).splits g)).map
        (fun l => toString l)) ++ "\t" ++ "\n" ∧
    splitLine r (sortedLabels ((classifyVolumes cp gtv recv).merges r)) =
      tabSeparated ((r :: sortedLabels ((classifyVolumes cp gtv recv).merges r)).map
        (fun l => toString l)) ++ "\t" ++ "\n" ∧
    fpsFileContent (classifyVolumes cp gtv recv) =
      joinStrings ((sortedLabels ((classifyVolumes cp gtv recv).falsePositives)).map
        (fun l => toString l ++ "\n")) ∧
    fnsFileContent (classifyVolumes cp gtv recv) =
      joinStrings ((sortedLabels ((classifyVolumes cp gtv recv).falseNegatives)).map
        (fun l => toString l ++ "\n")) := by
  refine ⟨?_, ?_, splitLine_tab_separated g _, splitLine_tab_separated r _, rfl, rfl⟩ <;>
    cases corr <;> first
      | exact absurd rfl hcorr
      | cases hb : cp.bgEnabled <;>
          simp [runMain, hh, hted, evaluatePair, hdims, classifyVolumes_bg, hb]

/-- Witness for C9: the listing outputs of a concrete identity run at
tolerance 1, whose splits and merges are nonempty. -/
theorem error_listing_line_format_witness :
    (optsRun.plotFileHeader = false ∧ optsRun.tedErrorFiles = true ∧
     sameDims vol2 vol2 = true ∧ CorrectedFetch.noSuchOutput ≠ CorrectedFetch.otherError) ∧
    ((runMain optsRun ⟨1, 1, 1, false⟩ vol2 vol2 auxSample .noSuchOutput "").splitsFile =
       some (splitsFileContent (classifyVolumes ⟨1, 1, 1, false⟩ vol2 vol2)) ∧
     (runMain optsRun ⟨1, 1, 1, false⟩ vol2 vol2 auxSample .noSuchOutput "").mergesFile =
       some (mergesFileContent (classifyVolumes ⟨1, 1, 1, false⟩ vol2 vol2)) ∧
     splitLine 1 (sortedLabels ((classifyVolumes ⟨1, 1, 1, false⟩ vol2 vol2).splits 1)) =
       tabSeparated
         ((1 :: sortedLabels ((classifyVolumes ⟨1, 1, 1, false⟩ vol2 vol2).splits 1)).map
           (fun l => toString l)) ++ "\t" ++ "\n" ∧
     splitLine 2 (sortedLabels ((classifyVolumes ⟨1, 1, 1, false⟩ vol2 vol2).merges 2)) =
       tabSeparated
         ((2 :: sortedLabels ((classifyVolumes ⟨1, 1, 1, false⟩ vol2 vol2).merges 2)).map
           (fun l => toString l)) ++ "\t" ++ "\n" ∧
     fpsFileContent (classifyVolumes ⟨1, 1, 1, false⟩ vol2 vol2) =
       joinStrings
         ((sortedLabels ((classifyVolumes ⟨1, 1, 1, false⟩ vol2 vol2).falsePositives)).map
           (fun l => toString l ++ "\n")) ∧
     fnsFileContent (classifyVolumes ⟨1, 1, 1, false⟩ vol2 vol2) =
       joinStrings
         ((sortedLabels ((classifyVolumes ⟨1, 1, 1, false⟩ vol2 vol2).falseNegatives)).map
           (fun l => toString l ++ "\n"))) :=
  ⟨by decide,
   error_listing_line_format optsRun ⟨1, 1, 1, false⟩ vol2 vol2 auxSample .noSuchOutput ""
     1 2 rfl rfl (by decide) (by decide)⟩

/-- C10: every write of the run to the plot file appends: the prior content
stays unchanged as a prefix and exactly one new line is added after it —
the header line in a header-only run, the single-line error report
otherwise. -/
theorem plot_file_appends_one_line (o : Options) (cp : ClassifierParams)
    (gtv recv : LabelVolume) (aux : AuxMetrics) (corr : CorrectedFetch) (plot0 : String)
    (hplot : o.plotFile = true) (hdims : sameDims gtv recv = true)
    (hcorr : corr ≠ .otherError) :
    (runMain o cp gtv recv aux corr plot0).plotFile =
      plot0 ++ (if o.plotFileHeader then headerLine (paramsOf o)
        else reportLine (paramsOf o) (classifyVolumes cp gtv recv) aux) ++ "\n" := by
  by_cases hh : o.plotFileHeader = true
  · simp [runMain, hh]
  · rw [Bool.not_eq_true] at hh
    cases corr <;> first
      | exact absurd rfl hcorr
      | simp [runMain, hh, hplot, evaluatePair, hdims]

/-- Witness for C10: a concrete run appends the report line after the
pre-existing plot file content. -/
theorem plot_file_appends_one_line_witness :
    (optsRun.plotFile = true ∧ sameDims vol2 vol2 = true ∧
     CorrectedFetch.noSuchOutput ≠ CorrectedFetch.otherError) ∧
    (runMain optsRun ⟨0, 1, 1, false⟩ vol2 vol2 auxSample .noSuchOutput "old content\n").plotFile =
      "old content\n" ++ (if optsRun.plotFileHeader then headerLine (paramsOf optsRun)
        else reportLine (paramsOf optsRun) (classifyVolumes ⟨0, 1, 1, false⟩ vol2 vol2)
          auxSample) ++ "\n" :=
  ⟨by decide,
   plot_file_appends_one_line optsRun ⟨0, 1, 1, false⟩ vol2 vol2 auxSample .noSuchOutput
     "old content\n" rfl (by decide) (by decide)⟩
